import Mathlib

/-!
Verification of the CS396 Travel-App video-approval pipeline backend
(`backend/src/routes/videos.ts` and `backend/src/routes/pins.ts`).

Shallow embedding conventions:
* JavaScript numbers carry no arithmetic in the modelled code, so latitude,
  longitude and confidence are modelled as rationals (`Rat`); JavaScript's
  number-to-string conversion in template literals is abstracted as `toString`.
* Supabase rows become Lean structures; a `Partial<Row>` update object becomes
  a structure listing exactly the columns the source writes.
* An external HTTP call is modelled by an `HttpOutcome` value supplied by the
  environment: a parsed 2xx body, a non-2xx response (`fetch` resolves,
  `response.ok` is false), or a thrown network error (`fetch` rejects).
* Fallible code returns `Except Unit`; a thrown JavaScript error is
  `Except.error ()`.
* Route handlers are modelled after request validation (the `videoId` /
  `tripId` parameters have passed the zod UUID parse and the body has passed
  its zod schema); the handlers also return a trace of store operations so
  frame conditions ("no store reads or writes") are statable.
-/

namespace TravelApp

/-- A latitude/longitude pair (`type LatLng = { lat: number; lng: number }`
in `videos.ts`). -/
structure LatLng where
  lat : Rat
  lng : Rat
deriving DecidableEq

/-- Constant `PLACES_BIAS_RADIUS_METERS = 50000` from `videos.ts` line 34. -/
def PLACES_BIAS_RADIUS_METERS : Nat := 50000

/-- JavaScript's `String.prototype.trim()`: drop whitespace from both ends
(modelled structurally over the character list so that it evaluates). -/
def jsTrim (s : String) : String :=
  ⟨((s.data.dropWhile Char.isWhitespace).reverse.dropWhile Char.isWhitespace).reverse⟩

/-- Function `normalizeHint` from `videos.ts`: trim the optional hint and map an
empty/whitespace-only value to null. -/
def normalizeHint : Option String → Option String
  | none => none
  | some s =>
    let t := jsTrim s
    if t = "" then none else some t

/-- Function `buildPlaceQuery` from `videos.ts`: the three parts (name, address hint,
location hint, the latter two defaulting to the empty string) are trimmed,
empty parts dropped, and the rest joined with a comma-space separator. -/
def buildPlaceQuery (candidateName : String) (addressHint locationHint : Option String) : String :=
  let parts :=
    ([candidateName, addressHint.getD "", locationHint.getD ""].map jsTrim).filter
      (fun part => 0 < part.length)
  String.intercalate ", " parts

/-- Second definition for the refinement claim about `buildPlaceQuery`,
following the specification's words: join candidate name, address hint and
location hint with the separator ", ", dropping parts that are absent or trim
to empty (the retained parts are joined in trimmed form, as the
specification's examples show). -/
def buildPlaceQuerySpec (candidateName : String) (addressHint locationHint : Option String) : String :=
  String.intercalate ", "
    ((([some candidateName, addressHint, locationHint].filterMap id).map jsTrim).filter
      (fun part => part ≠ ""))

/-- A URL together with its query parameters, modelling the essential state of
a `URL` object with `searchParams`: the parameter list in insertion order. -/
structure UrlModel where
  base : String
  params : List (String × String)
deriving DecidableEq

/-- Model of `url.searchParams.set(k, v)`: overwrite the value if the key is present,
otherwise append the pair. -/
def UrlModel.setParam (u : UrlModel) (k v : String) : UrlModel :=
  if u.params.any (fun p => p.1 == k) then
    { u with params := u.params.map (fun p => if p.1 == k then (k, v) else p) }
  else
    { u with params := u.params ++ [(k, v)] }

/-- Look up a query parameter by key. -/
def UrlModel.getParam (u : UrlModel) (k : String) : Option String :=
  (u.params.find? (fun p => p.1 == k)).map (fun p => p.2)

/-- The string written for a bias point in the `location` query parameter
(the template literal `${locationBias.lat},${locationBias.lng}`). -/
def latLngParam (p : LatLng) : String :=
  toString p.lat ++ "," ++ toString p.lng

/-- Function `buildPlacesTextSearchUrl` from `videos.ts`: sets `query` and `key`
always, and `location` plus `radius` exactly when a bias point is given. -/
def buildPlacesTextSearchUrl (query apiKey : String) (locationBias : Option LatLng) : UrlModel :=
  let u : UrlModel :=
    { base := "https://maps.googleapis.com/maps/api/place/textsearch/json", params := [] }
  let u := u.setParam "query" query
  let u := u.setParam "key" apiKey
  match locationBias with
  | some b =>
    (u.setParam "location" (latLngParam b)).setParam "radius"
      (toString PLACES_BIAS_RADIUS_METERS)
  | none => u

/-- One entry of the `results` array of a Places Text Search response body:
the fields the code reads (`place_id`, `name`, `formatted_address`,
`geometry.location`), each possibly absent. -/
structure PlacesResultJson where
  place_id : Option String
  name : Option String
  formatted_address : Option String
  location : Option LatLng
deriving DecidableEq

/-- A parsed Places Text Search response body (the code only reads
`results`). -/
structure PlacesResponseJson where
  results : List PlacesResultJson
deriving DecidableEq

/-- One entry of the `results` array of a Geocoding response body, reduced to
the only field the code reads: `geometry.location` (possibly absent). -/
structure GeocodeResultJson where
  location : Option LatLng
deriving DecidableEq

/-- A parsed Geocoding response body. -/
structure GeocodeResponseJson where
  results : List GeocodeResultJson
deriving DecidableEq

/-- Outcome of one external HTTP call: a parsed 2xx body, a non-2xx response
(`response.ok` is false), or a thrown network error (`fetch` rejects). -/
inductive HttpOutcome (α : Type) where
  | ok (body : α)
  | httpError
  | netThrow
deriving DecidableEq

/-- The `PlaceResult` type from `videos.ts` (the non-null case): the fields
extracted from the top search result, plus the raw response body. -/
structure PlaceResult where
  place_id : String
  name : Option String
  address : Option String
  location : LatLng
  raw : PlacesResponseJson
deriving DecidableEq

/-- A row of `video_candidates` as the backend reads and writes it
(`VideoCandidateRow` in `supabaseClient.ts`, with the `places_*` debug columns
of migration 004 and the `places_failed` column of migration 007, which the
README documents and the frontend row type declares). -/
structure VideoCandidateRow where
  id : String
  video_id : String
  name : String
  address_hint : Option String
  latitude : Option Rat
  longitude : Option Rat
  confidence : Rat
  places_query : Option String
  places_place_id : Option String
  places_name : Option String
  places_address : Option String
  places_raw : Option PlacesResponseJson
  places_failed : Bool
deriving DecidableEq

/-- A row of `videos` (the columns the modelled routes read and write). -/
structure VideoRow where
  id : String
  trip_id : String
  location_hint : Option String
  status : String
deriving DecidableEq

/-- A row of `video_jobs` (`VideoJobRow` in `supabaseClient.ts`); timestamps
are abstracted as naturals, ordered as the ISO strings are. -/
structure VideoJobRow where
  id : String
  video_id : String
  status : String
  progress : Int
  error : Option String
  created_at : Nat
  updated_at : Nat
deriving DecidableEq

/-- A pin row to insert into `pins` (the object literal built by both
routes). -/
structure PinInsert where
  trip_id : String
  name : String
  latitude : Rat
  longitude : Rat
  place_id : String
  notes : String
deriving DecidableEq

/-- Function `geocodeLocationHint` from `videos.ts`: with no API key it returns null
without calling out; otherwise a non-2xx response gives null, a thrown fetch
propagates, and a 2xx body gives `results[0].geometry.location` when
present. -/
def geocodeLocationHint (apiKey : String) (outcome : HttpOutcome GeocodeResponseJson) :
    Except Unit (Option LatLng) :=
  if apiKey = "" then Except.ok none
  else
    match outcome with
    | .netThrow => Except.error ()
    | .httpError => Except.ok none
    | .ok json => Except.ok (json.results.head?.bind (fun r => r.location))

/-- Function `fetchPlaceForCandidate` from `videos.ts`: with no API key it returns null
without calling out; otherwise it builds the query and URL, and on a 2xx body
extracts the top result, requiring a truthy `place_id` (present and nonempty)
and a `geometry.location`; a non-2xx response gives null; a thrown fetch
propagates. -/
def fetchPlaceForCandidate (apiKey : String) (candidate : VideoCandidateRow)
    (locationHint : Option String) (locationBias : Option LatLng)
    (outcome : HttpOutcome PlacesResponseJson) : Except Unit (Option PlaceResult) :=
  if apiKey = "" then Except.ok none
  else
    let query := buildPlaceQuery candidate.name candidate.address_hint locationHint
    let _url := buildPlacesTextSearchUrl query apiKey locationBias
    match outcome with
    | .netThrow => Except.error ()
    | .httpError => Except.ok none
    | .ok json =>
      match json.results.head? with
      | none => Except.ok none
      | some top =>
        match top.place_id, top.location with
        | some pid, some loc =>
          if pid = "" then Except.ok none
          else
            Except.ok (some
              { place_id := pid
                name := top.name
                address := top.formatted_address
                location := loc
                raw := json })
        | some _, none => Except.ok none
        | none, _ => Except.ok none

/-- The external-call environment of one approval request. Outcomes are
deterministic functions (the geocoder by hint text, the places search by
candidate id), so repeating a call repeats its outcome. -/
structure ApproveEnv where
  apiKey : String
  geocodeOutcome : String → HttpOutcome GeocodeResponseJson
  placesOutcome : String → HttpOutcome PlacesResponseJson

/-- The `Partial<VideoCandidateRow>` object `debugUpdate` persisted for each
candidate by the approve route: exactly these five columns and no others (in
particular, neither the coordinates nor `places_failed` appear in it). -/
structure CandidateDebugUpdate where
  places_query : Option String
  places_place_id : Option String
  places_name : Option String
  places_address : Option String
  places_raw : Option PlacesResponseJson
deriving DecidableEq

/-- Applying the five-column update to a candidate row: the listed columns are
overwritten with the update's values, all other columns keep their values. -/
def applyDebugUpdate (u : CandidateDebugUpdate) (c : VideoCandidateRow) : VideoCandidateRow :=
  { c with
    places_query := u.places_query
    places_place_id := u.places_place_id
    places_name := u.places_name
    places_address := u.places_address
    places_raw := u.places_raw }

/-- The value of one candidate's closure in the approve route's
`Promise.all`: the geocode-call count it contributed, the bias point it used,
the local `latitude`/`longitude` after the optional place override, the
persisted debug update, and the pin object (or null) it returned. -/
structure ResolvedCandidate where
  candidate_id : String
  geocodeCalls : Nat
  locationBias : Option LatLng
  latitude : Option Rat
  longitude : Option Rat
  update : CandidateDebugUpdate
  pin : Option PinInsert
deriving DecidableEq

/-- The pure tail of a candidate closure, after the geocode and places-search
results are in hand: compute the possibly overridden coordinates, the debug
update (`placeId || null` maps the empty string to null), and the pin object
guarded by both coordinates being non-null, with `placeName ?? candidate.name`
as the pin name and `['from video', placeAddress?]` joined by an em-dash as
its notes. -/
def resolveCandidatePure (tripId : String) (query : String) (gcalls : Nat)
    (locationBias : Option LatLng) (place : Option PlaceResult)
    (c : VideoCandidateRow) : ResolvedCandidate :=
  let latitude := match place with | some p => some p.location.lat | none => c.latitude
  let longitude := match place with | some p => some p.location.lng | none => c.longitude
  let placeId := match place with | some p => p.place_id | none => ""
  let placeName := place.bind (fun p => p.name)
  let placeAddress := place.bind (fun p => p.address)
  let placesRaw := place.map (fun p => p.raw)
  let update : CandidateDebugUpdate :=
    { places_query := some query
      places_place_id := if placeId = "" then none else some placeId
      places_name := placeName
      places_address := placeAddress
      places_raw := placesRaw }
  let pin : Option PinInsert :=
    match latitude, longitude with
    | some la, some lo =>
      let finalName := placeName.getD c.name
      let noteParts := ["from video"] ++ (match placeAddress with | some a => [a] | none => [])
      some
        { trip_id := tripId
          name := finalName
          latitude := la
          longitude := lo
          place_id := placeId
          notes := String.intercalate " — " noteParts }
    | some _, none => none
    | none, _ => none
  { candidate_id := c.id
    geocodeCalls := gcalls
    locationBias := locationBias
    latitude := latitude
    longitude := longitude
    update := update
    pin := pin }

/-- One candidate's async closure in the approve route.

The closure consults the per-request `locationCache`, but the `has` check runs
in the closure's synchronous prefix while the matching `set` runs only after
`await geocodeLocationHint(...)` resolves — and under `Promise.all` every
closure's synchronous prefix runs before any awaited promise resolves. So
within one batch every cache lookup misses, and a candidate with a location
hint always invokes the geocoder itself (contributing one geocode call); with
a deterministic geocoder the bias point it then reads back is its own result.
A thrown geocode or places-search call rejects the closure's promise. -/
def resolveCandidate (env : ApproveEnv) (tripId : String) (locationHint : Option String)
    (c : VideoCandidateRow) : Except Unit ResolvedCandidate := do
  let query := buildPlaceQuery c.name c.address_hint locationHint
  let biasCalls ←
    match locationHint with
    | none => pure ((none : Option LatLng), 0)
    | some h => do
      let b ← geocodeLocationHint env.apiKey (env.geocodeOutcome h)
      pure (b, 1)
  let place ←
    fetchPlaceForCandidate env.apiKey c locationHint biasCalls.1 (env.placesOutcome c.id)
  pure (resolveCandidatePure tripId query biasCalls.2 biasCalls.1 place c)

/-- The approve route's `Promise.all` over the fetched candidates: the value
is the list of closure results in array order; if any closure's promise
rejects, the whole batch rejects (the environment is deterministic, so the
collected value does not depend on the interleaving). -/
def approveBatch (env : ApproveEnv) (tripId : String) (locationHint : Option String) :
    List VideoCandidateRow → Except Unit (List ResolvedCandidate)
  | [] => Except.ok []
  | c :: rest => do
    let r ← resolveCandidate env tripId locationHint c
    let rs ← approveBatch env tripId locationHint rest
    pure (r :: rs)

/-- A store operation performed by a route handler (read or write against
Supabase), recorded so frame conditions are statable. -/
inductive StoreOp where
  | readVideo (videoId : String)
  | readCandidates (videoId : String) (candidateIds : List String)
  | updateCandidate (candidateId : String)
  | insertPins (count : Nat)
deriving DecidableEq

/-- The relational store the routes read and write. -/
structure Store where
  videos : List VideoRow
  jobs : List VideoJobRow
  candidates : List VideoCandidateRow
  pins : List PinInsert
deriving DecidableEq

/-- Model of `supabase.from('videos').select(...).eq('id', videoId).single()`:
the video row with the given id, if any. -/
def findVideo (store : Store) (videoId : String) : Option VideoRow :=
  store.videos.find? (fun v => v.id == videoId)

/-- The approve route's candidate fetch:
`.eq('video_id', videoId).in('id', candidateIds)`. -/
def fetchCandidates (store : Store) (videoId : String) (candidateIds : List String) :
    List VideoCandidateRow :=
  store.candidates.filter (fun c => c.video_id == videoId && candidateIds.contains c.id)

/-- The JSON body (status and payload fields) of an approve response. -/
structure ApproveResponse where
  status : Nat
  createdPinCount : Option Nat
  pins : Option (List PinInsert)
  error : Option String
deriving DecidableEq

/-- An approve request's full outcome: response, resulting store, and the
trace of store operations the handler performed. -/
structure ApproveResult where
  response : ApproveResponse
  store : Store
  ops : List StoreOp
deriving DecidableEq

/-- The `POST /videos/:videoId/approve` handler from `videos.ts`, after
request validation (UUID path parameter and body schema both parsed).

* An empty `candidateIds` list returns 200 with `createdPinCount: 0` before
  any store access.
* Otherwise the video is read (404 if absent), the submitted candidates are
  read, and the per-candidate closures run under `Promise.all`.
* If any closure rejects, `Promise.all` rejects before `pinsToInsert` is
  bound, so no pin insert happens and the route's catch returns 500
  ("Internal server error"); candidate updates of closures that had already
  completed are schedule-dependent and not modelled.
* Otherwise each candidate's debug update is persisted (every row whose id
  matches), the null entries are filtered out of the pin list, an empty list
  short-circuits to 200 with count 0, and otherwise the pins are inserted and
  the response reports the inserted rows and their count. -/
def approveHandler (env : ApproveEnv) (store : Store) (videoId : String)
    (candidateIds : List String) : ApproveResult :=
  if candidateIds = [] then
    { response := { status := 200, createdPinCount := some 0, pins := none, error := none }
      store := store
      ops := [] }
  else
    match findVideo store videoId with
    | none =>
      { response :=
          { status := 404, createdPinCount := none, pins := none
            error := some "Video not found" }
        store := store
        ops := [StoreOp.readVideo videoId] }
    | some video =>
      let fetched := fetchCandidates store videoId candidateIds
      let locationHint := normalizeHint video.location_hint
      let baseOps := [StoreOp.readVideo videoId, StoreOp.readCandidates videoId candidateIds]
      match approveBatch env video.trip_id locationHint fetched with
      | Except.error _ =>
        { response :=
            { status := 500, createdPinCount := none, pins := none
              error := some "Internal server error" }
          store := store
          ops := baseOps }
      | Except.ok resolved =>
        let store' :=
          { store with
            candidates := store.candidates.map (fun c =>
              match resolved.find? (fun r => r.candidate_id == c.id) with
              | some r => applyDebugUpdate r.update c
              | none => c) }
        let updateOps := resolved.map (fun r => StoreOp.updateCandidate r.candidate_id)
        let filteredPins := resolved.filterMap (fun r => r.pin)
        if filteredPins = [] then
          { response := { status := 200, createdPinCount := some 0, pins := none, error := none }
            store := store'
            ops := baseOps ++ updateOps }
        else
          { response :=
              { status := 200, createdPinCount := some filteredPins.length
                pins := some filteredPins, error := none }
            store := { store' with pins := store'.pins ++ filteredPins }
            ops := baseOps ++ updateOps ++ [StoreOp.insertPins filteredPins.length] }

/-- The JSON body (status and payload fields) of a pins-route response. -/
structure PinsResponse where
  status : Nat
  createdPinCount : Option Nat
  error : Option String
deriving DecidableEq

/-- The `candidate_ids` branch of `POST /trips/:tripId/pins` from `pins.ts`,
after request validation: fetch the candidate rows by id, fetch the owning
videos, reject with 400 when any candidate's video does not belong to the
trip, reject with 400 when any candidate is missing a coordinate, otherwise
insert one pin per candidate and return 201 with the created-pin count. -/
def pinsFromCandidates (store : Store) (tripId : String) (candidateIds : List String) :
    PinsResponse × Store :=
  let cands := store.candidates.filter (fun c => candidateIds.contains c.id)
  let videoIds := (cands.map (fun c => c.video_id)).dedup
  let videos := store.videos.filter (fun v => videoIds.contains v.id)
  let videoTrip : String → Option String := fun vid =>
    (videos.find? (fun v => v.id == vid)).map (fun v => v.trip_id)
  let mismatched := cands.filter (fun c => videoTrip c.video_id ≠ some tripId)
  if mismatched ≠ [] then
    ({ status := 400, createdPinCount := none
       error := some ("One or more candidates do not belong to trip " ++ tripId ++ ".") },
     store)
  else
    let missingCoords :=
      cands.filter (fun c => c.latitude.isNone || c.longitude.isNone)
    if missingCoords ≠ [] then
      ({ status := 400, createdPinCount := none
         error := some "One or more candidates are missing coordinates." },
       store)
    else
      let pinsToInsert := cands.map (fun c =>
        let noteParts :=
          ["from video"] ++ (match c.places_address with | some a => [a] | none => [])
        { trip_id := tripId
          name := c.places_name.getD c.name
          latitude := c.latitude.getD 0
          longitude := c.longitude.getD 0
          place_id := c.places_place_id.getD ""
          notes := String.intercalate " â€” " noteParts : PinInsert })
      ({ status := 201, createdPinCount := some pinsToInsert.length, error := none },
       { store with pins := store.pins ++ pinsToInsert })

/-- Model of `.order('created_at', descending).limit(1)` over a video's
jobs: the job with the greatest `created_at` (ties broken by list position,
which the database leaves unspecified). -/
def latestJob (jobs : List VideoJobRow) (videoId : String) : Option VideoJobRow :=
  (jobs.filter (fun j => j.video_id == videoId)).foldl
    (fun acc j =>
      match acc with
      | none => some j
      | some k => if k.created_at < j.created_at then some j else some k)
    none

/-- The JSON body (status and payload fields) of a retry response; `job` is
the fetched (pre-reset) job row, as the source responds with the row it
selected. -/
structure RetryResponse where
  status : Nat
  job : Option VideoJobRow
  error : Option String
deriving DecidableEq

/-- The `POST /videos/:videoId/retry` handler from `videos.ts`, after request
validation: fetch the video's most recent job; if one exists, update it to
status `queued`, progress 0, null error and a fresh `updated_at`; in every
case set the video's status to `queued`; respond 200 with the fetched job. -/
def retryHandler (store : Store) (videoId : String) (now : Nat) :
    RetryResponse × Store :=
  let job := latestJob store.jobs videoId
  let jobs' :=
    match job with
    | none => store.jobs
    | some j =>
      store.jobs.map (fun k =>
        if k.id == j.id then
          { k with status := "queued", progress := 0, error := none, updated_at := now }
        else k)
  let videos' :=
    store.videos.map (fun v => if v.id == videoId then { v with status := "queued" } else v)
  ({ status := 200, job := job, error := none },
   { store with jobs := jobs', videos := videos' })

/-! Concrete fixtures used by witnesses and counterexamples. -/

/-- A candidate row with no stored coordinates and empty resolver fields. -/
def mkCand (i vid nm : String) : VideoCandidateRow :=
  { id := i
    video_id := vid
    name := nm
    address_hint := none
    latitude := none
    longitude := none
    confidence := 1
    places_query := none
    places_place_id := none
    places_name := none
    places_address := none
    places_raw := none
    places_failed := false }

/-- A 2xx Places Text Search body whose top result resolves fully. -/
def placesBodyA : PlacesResponseJson :=
  { results :=
      [{ place_id := some "place-123"
         name := some "Example Cafe"
         formatted_address := some "100 Market St"
         location := some { lat := 41, lng := -87 } }] }

/-- A 2xx Geocoding body with one located result. -/
def geoBodyA : GeocodeResponseJson :=
  { results := [{ location := some { lat := 41, lng := -87 } }] }

/-- Candidate whose places search succeeds in the fixture environment. -/
def cand1 : VideoCandidateRow := mkCand "c1" "v1" "Example Cafe"

/-- Candidate whose places search returns a non-2xx response in the fixture
environment; it has no stored coordinates. -/
def cand2 : VideoCandidateRow := mkCand "c2" "v1" "Mystery Spot"

/-- Video `v1` of trip `t1` with no location hint. -/
def video1 : VideoRow := { id := "v1", trip_id := "t1", location_hint := none, status := "done" }

/-- Environment: API key configured; candidate `c1`'s places search succeeds,
every other one gets a non-2xx response; geocoding succeeds. -/
def env1 : ApproveEnv :=
  { apiKey := "key"
    geocodeOutcome := fun _ => HttpOutcome.ok geoBodyA
    placesOutcome := fun cid => if cid = "c1" then HttpOutcome.ok placesBodyA
      else HttpOutcome.httpError }

/-- Store holding video `v1` and candidates `c1`, `c2`. -/
def store1 : Store :=
  { videos := [video1], jobs := [], candidates := [cand1, cand2], pins := [] }

/-- The batch value the fixture approval of `c1`, `c2` computes to. -/
def resolved1 : List ResolvedCandidate :=
  [resolveCandidatePure "t1" "Example Cafe" 0 none
      (some
        { place_id := "place-123"
          name := some "Example Cafe"
          address := some "100 Market St"
          location := { lat := 41, lng := -87 }
          raw := placesBodyA })
      cand1,
   resolveCandidatePure "t1" "Mystery Spot" 0 none none cand2]

/-- The closure value computed for `cand2` alone (failed resolution). -/
def res2 : ResolvedCandidate := resolveCandidatePure "t1" "Mystery Spot" 0 none none cand2

/-- Video `v4` of trip `t4` with a location hint. -/
def video4 : VideoRow :=
  { id := "v4", trip_id := "t4", location_hint := some "Chicago, IL", status := "done" }

/-- Two candidates of video `v4`. -/
def cand41 : VideoCandidateRow := mkCand "c41" "v4" "Example Cafe"

/-- Second candidate of video `v4`. -/
def cand42 : VideoCandidateRow := mkCand "c42" "v4" "Other Cafe"

/-- Environment for the geocode-count fixture: every call succeeds. -/
def env4 : ApproveEnv :=
  { apiKey := "key"
    geocodeOutcome := fun _ => HttpOutcome.ok geoBodyA
    placesOutcome := fun _ => HttpOutcome.ok placesBodyA }

/-- Environment where candidate `ct`'s places search throws (network error)
and every other call succeeds. -/
def env7 : ApproveEnv :=
  { apiKey := "key"
    geocodeOutcome := fun _ => HttpOutcome.ok geoBodyA
    placesOutcome := fun cid => if cid = "ct" then HttpOutcome.netThrow
      else HttpOutcome.ok placesBodyA }

/-- Candidate of video `v7` whose places search succeeds. -/
def candGood : VideoCandidateRow := mkCand "cg" "v7" "Example Cafe"

/-- Candidate of video `v7` whose places search throws. -/
def candThrow : VideoCandidateRow := mkCand "ct" "v7" "Flaky Cafe"

/-- Video `v7` of trip `t7` with no location hint. -/
def video7 : VideoRow := { id := "v7", trip_id := "t7", location_hint := none, status := "done" }

/-- Store holding video `v7` and candidates `cg`, `ct`. -/
def store7 : Store :=
  { videos := [video7], jobs := [], candidates := [candGood, candThrow], pins := [] }

/-- A failed job of video `v1`. -/
def job1 : VideoJobRow :=
  { id := "j1", video_id := "v1", status := "failed", progress := 37
    error := some "boom", created_at := 5, updated_at := 5 }

/-- A later, processing job of video `v1`. -/
def job2 : VideoJobRow :=
  { id := "j2", video_id := "v1", status := "processing", progress := 40
    error := none, created_at := 9, updated_at := 9 }

/-- Store for the retry-on-failed fixture: the only job is failed. -/
def storeR8 : Store :=
  { videos := [video1], jobs := [job1], candidates := [cand1, cand2], pins := [] }

/-- Store for the retry-regardless-of-status fixture: the latest job is
processing. -/
def storeR9 : Store :=
  { videos := [video1], jobs := [job1, job2], candidates := [cand1, cand2], pins := [] }

/-! Helper lemmas (shared; none of these is a claim's theorem). -/

theorem string_length_pos_iff (s : String) : 0 < s.length ↔ s ≠ "" := by
  rcases s with ⟨data⟩
  cases data with
  | nil => simp [String.length]
  | cons a as =>
    simp only [String.length, List.length_cons, ne_eq]
    constructor
    · intro _ h
      have hd : (a :: as : List Char) = [] := congrArg String.data h
      simp at hd
    · intro _
      exact Nat.succ_pos _

theorem filter_length_pos_eq_filter_ne (l : List String) :
    l.filter (fun p => 0 < p.length) = l.filter (fun p => p ≠ "") :=
  List.filter_congr (fun x _ => decide_eq_decide.mpr (string_length_pos_iff x))

theorem except_bind_ok {α β : Type} (e : Except Unit α) (f : α → Except Unit β) (b : β) :
    e >>= f = Except.ok b ↔ ∃ a, e = Except.ok a ∧ f a = Except.ok b := by
  cases e <;> simp [Bind.bind, Except.bind]

/-- C5 general part: the code's query builder agrees with the
specification-worded one everywhere. -/
theorem buildPlaceQuery_eq_spec (n : String) (a l : Option String) :
    buildPlaceQuery n a l = buildPlaceQuerySpec n a l := by
  cases a <;> cases l <;>
    · simp only [buildPlaceQuery, buildPlaceQuerySpec, Option.getD_some, Option.getD_none,
        List.filterMap, List.map]
      rw [filter_length_pos_eq_filter_ne]
      try simp [List.filter, show jsTrim "" = "" from rfl]

/-- C5: `buildPlaceQuery` joins candidate name, address hint, and location
hint with the separator ", ", dropping parts that are absent or trim to empty
(stated as agreement with the specification-worded builder on all inputs),
and in particular maps ("Example Cafe", "Market St", "Chicago, IL") to
"Example Cafe, Market St, Chicago, IL" and ("Example Cafe", null, null) to
"Example Cafe". -/
theorem buildPlaceQuery_joins_and_drops_empty :
    (∀ (n : String) (a l : Option String), buildPlaceQuery n a l = buildPlaceQuerySpec n a l) ∧
    buildPlaceQuery "Example Cafe" (some "Market St") (some "Chicago, IL") =
      "Example Cafe, Market St, Chicago, IL" ∧
    buildPlaceQuery "Example Cafe" none none = "Example Cafe" :=
  ⟨buildPlaceQuery_eq_spec, by decide, by decide⟩

/-- C6: for every query and API key, the places-text-search URL carries a
`location` parameter equal to "lat,lng" and a `radius` parameter equal to
50000 exactly when a bias point is supplied; with no bias point it carries
neither parameter. -/
theorem buildPlacesTextSearchUrl_bias_params (query apiKey : String) (b : LatLng) :
    (buildPlacesTextSearchUrl query apiKey (some b)).getParam "location" =
      some (latLngParam b) ∧
    (buildPlacesTextSearchUrl query apiKey (some b)).getParam "radius" = some "50000" ∧
    (buildPlacesTextSearchUrl query apiKey none).getParam "location" = none ∧
    (buildPlacesTextSearchUrl query apiKey none).getParam "radius" = none :=
  ⟨rfl, rfl, rfl, rfl⟩

/-- C10: an approval request with an empty candidateIds list returns 200 with
createdPinCount 0, leaves the store untouched and performs no store
operations at all — for every store, in particular ones where the video id
does not exist. -/
theorem approve_empty_ids_no_store_access (env : ApproveEnv) (store : Store) (videoId : String) :
    approveHandler env store videoId [] =
      { response := { status := 200, createdPinCount := some 0, pins := none, error := none }
        store := store
        ops := [] } :=
  rfl

/-- Shared helper: whenever the video has a most recent job, the retry
handler resets every job row carrying its id to `queued`/0/null error with a
fresh `updated_at`, sets the video's status to `queued`, responds 200, and
leaves candidates, pins, and the number of job rows untouched. -/
theorem retry_resets_latest (store : Store) (videoId : String) (now : Nat) (j : VideoJobRow)
    (hj : latestJob store.jobs videoId = some j) :
    (retryHandler store videoId now).2.candidates = store.candidates ∧
    (retryHandler store videoId now).2.pins = store.pins ∧
    (retryHandler store videoId now).2.jobs.length = store.jobs.length ∧
    (∀ k ∈ (retryHandler store videoId now).2.jobs, k.id = j.id →
      k.status = "queued" ∧ k.progress = 0 ∧ k.error = none ∧ k.updated_at = now) ∧
    (∀ v ∈ (retryHandler store videoId now).2.videos, v.id = videoId → v.status = "queued") ∧
    (retryHandler store videoId now).1.status = 200 := by
  simp only [retryHandler, hj]
  refine ⟨trivial, trivial, List.length_map _ _, ?_, ?_, trivial⟩
  · intro k hk hkid
    rcases List.mem_map.1 hk with ⟨k0, _, rfl⟩
    cases hb : (k0.id == j.id) with
    | true => simp [hb]
    | false =>
      simp only [hb, if_neg Bool.false_ne_true] at hkid ⊢
      exact absurd hkid (by simpa using hb)
  · intro v hv hvid
    rcases List.mem_map.1 hv with ⟨v0, _, rfl⟩
    cases hb : (v0.id == videoId) with
    | true => simp [hb]
    | false =>
      simp only [hb, if_neg Bool.false_ne_true] at hvid ⊢
      exact absurd hvid (by simpa using hb)

/-- C8: when a video's latest job has status `failed`, retry resets that job
to status `queued` with progress 0 and null error, resets the video's status
to `queued`, and leaves the video's candidate rows exactly as they were (no
row created, deleted, or modified); the job-row count is also unchanged. -/
theorem retry_failed_job_resets_and_preserves_candidates (store : Store) (videoId : String)
    (now : Nat) (j : VideoJobRow) (hj : latestJob store.jobs videoId = some j)
    (_hfail : j.status = "failed") :
    (∀ k ∈ (retryHandler store videoId now).2.jobs, k.id = j.id →
      k.status = "queued" ∧ k.progress = 0 ∧ k.error = none) ∧
    (∀ v ∈ (retryHandler store videoId now).2.videos, v.id = videoId → v.status = "queued") ∧
    (retryHandler store videoId now).2.candidates = store.candidates ∧
    (retryHandler store videoId now).2.jobs.length = store.jobs.length := by
  obtain ⟨hc, _, hl, hjobs, hvids, _⟩ := retry_resets_latest store videoId now j hj
  exact ⟨fun k hk hid =>
    ⟨(hjobs k hk hid).1, (hjobs k hk hid).2.1, (hjobs k hk hid).2.2.1⟩, hvids, hc, hl⟩

/-- C8 witness: a concrete store whose only job for `v1` is failed. -/
theorem retry_failed_job_witness :
    latestJob storeR8.jobs "v1" = some job1 ∧ job1.status = "failed" ∧
    ((∀ k ∈ (retryHandler storeR8 "v1" 100).2.jobs, k.id = job1.id →
        k.status = "queued" ∧ k.progress = 0 ∧ k.error = none) ∧
      (∀ v ∈ (retryHandler storeR8 "v1" 100).2.videos, v.id = "v1" → v.status = "queued") ∧
      (retryHandler storeR8 "v1" 100).2.candidates = storeR8.candidates ∧
      (retryHandler storeR8 "v1" 100).2.jobs.length = storeR8.jobs.length) :=
  ⟨by decide, by decide,
    retry_failed_job_resets_and_preserves_candidates storeR8 "v1" 100 job1 (by decide)
      (by decide)⟩

/-- C9 (implicit): the retry handler resets a video's most recent job to
`queued` with progress 0 and null error whatever its current status is — no
precondition on the job being terminal is enforced. -/
theorem retry_resets_any_status_job (store : Store) (videoId : String) (now : Nat)
    (j : VideoJobRow) (hj : latestJob store.jobs videoId = some j) :
    (∀ k ∈ (retryHandler store videoId now).2.jobs, k.id = j.id →
      k.status = "queued" ∧ k.progress = 0 ∧ k.error = none) ∧
    (∀ v ∈ (retryHandler store videoId now).2.videos, v.id = videoId → v.status = "queued") := by
  obtain ⟨_, _, _, hjobs, hvids, _⟩ := retry_resets_latest store videoId now j hj
  exact ⟨fun k hk hid =>
    ⟨(hjobs k hk hid).1, (hjobs k hk hid).2.1, (hjobs k hk hid).2.2.1⟩, hvids⟩

/-- C9 witness: a concrete store whose latest job for `v1` is `processing`
(not failed), still reset by retry. -/
theorem retry_resets_any_status_witness :
    latestJob storeR9.jobs "v1" = some job2 ∧ job2.status = "processing" ∧
    ((∀ k ∈ (retryHandler storeR9 "v1" 100).2.jobs, k.id = job2.id →
        k.status = "queued" ∧ k.progress = 0 ∧ k.error = none) ∧
      (∀ v ∈ (retryHandler storeR9 "v1" 100).2.videos, v.id = "v1" → v.status = "queued")) :=
  ⟨by decide, by decide, retry_resets_any_status_job storeR9 "v1" 100 job2 (by decide)⟩

theorem resolveCandidatePure_pin_isSome (tripId query : String) (g : Nat)
    (bias : Option LatLng) (place : Option PlaceResult) (c : VideoCandidateRow) :
    (resolveCandidatePure tripId query g bias place c).pin.isSome =
      ((resolveCandidatePure tripId query g bias place c).latitude.isSome &&
        (resolveCandidatePure tripId query g bias place c).longitude.isSome) := by
  rcases c with ⟨cid, cvid, cnm, cah, clat, clng, cconf, cpq, cpp, cpn, cpa, cpr, cpf⟩
  cases place <;> cases clat <;> cases clng <;> rfl

theorem resolveCandidatePure_candidate_id (tripId query : String) (g : Nat)
    (bias : Option LatLng) (place : Option PlaceResult) (c : VideoCandidateRow) :
    (resolveCandidatePure tripId query g bias place c).candidate_id = c.id :=
  rfl

theorem resolveCandidatePure_geocodeCalls (tripId query : String) (g : Nat)
    (bias : Option LatLng) (place : Option PlaceResult) (c : VideoCandidateRow) :
    (resolveCandidatePure tripId query g bias place c).geocodeCalls = g :=
  rfl

theorem resolveCandidatePure_raw (tripId query : String) (g : Nat)
    (bias : Option LatLng) (place : Option PlaceResult) (c : VideoCandidateRow) :
    (resolveCandidatePure tripId query g bias place c).update.places_raw =
      place.map (fun p => p.raw) :=
  rfl

theorem resolveCandidatePure_coords_of_place_none (tripId query : String) (g : Nat)
    (bias : Option LatLng) (c : VideoCandidateRow) :
    (resolveCandidatePure tripId query g bias none c).latitude = c.latitude ∧
      (resolveCandidatePure tripId query g bias none c).longitude = c.longitude :=
  ⟨rfl, rfl⟩

theorem resolveCandidate_ok_shape (env : ApproveEnv) (tripId : String) (lh : Option String)
    (c : VideoCandidateRow) (r : ResolvedCandidate)
    (h : resolveCandidate env tripId lh c = Except.ok r) :
    ∃ (g : Nat) (bias : Option LatLng) (place : Option PlaceResult),
      r = resolveCandidatePure tripId (buildPlaceQuery c.name c.address_hint lh) g bias place c := by
  unfold resolveCandidate at h
  cases lh with
  | none =>
    simp only [pure_bind] at h
    rcases (except_bind_ok _ _ _).1 h with ⟨place, _, hr⟩
    simp only [pure, Except.pure, Except.ok.injEq] at hr
    exact ⟨0, none, place, hr.symm⟩
  | some hh =>
    simp only [bind_assoc, pure_bind] at h
    rcases (except_bind_ok _ _ _).1 h with ⟨b, _, hrest⟩
    rcases (except_bind_ok _ _ _).1 hrest with ⟨place, _, hr⟩
    simp only [pure, Except.pure, Except.ok.injEq] at hr
    exact ⟨1, b, place, hr.symm⟩

theorem resolveCandidate_ok_pin (env : ApproveEnv) (tripId : String) (lh : Option String)
    (c : VideoCandidateRow) (r : ResolvedCandidate)
    (h : resolveCandidate env tripId lh c = Except.ok r) :
    r.pin.isSome = (r.latitude.isSome && r.longitude.isSome) ∧ r.candidate_id = c.id := by
  rcases resolveCandidate_ok_shape env tripId lh c r h with ⟨g, bias, place, rfl⟩
  exact ⟨resolveCandidatePure_pin_isSome _ _ _ _ _ _,
    resolveCandidatePure_candidate_id _ _ _ _ _ _⟩

theorem approveBatch_ok_forall (env : ApproveEnv) (tripId : String) (lh : Option String) :
    ∀ (cands : List VideoCandidateRow) (resolved : List ResolvedCandidate),
      approveBatch env tripId lh cands = Except.ok resolved →
      resolved.map (fun r => r.candidate_id) = cands.map (fun c => c.id) ∧
      ∀ r ∈ resolved, ∃ c ∈ cands, resolveCandidate env tripId lh c = Except.ok r := by
  intro cands
  induction cands with
  | nil =>
    intro resolved h
    simp only [approveBatch, Except.ok.injEq] at h
    subst h
    simp
  | cons c rest ih =>
    intro resolved h
    simp only [approveBatch] at h
    rcases (except_bind_ok _ _ _).1 h with ⟨r, hr, h2⟩
    rcases (except_bind_ok _ _ _).1 h2 with ⟨rs, hrs, h3⟩
    simp only [pure, Except.pure, Except.ok.injEq] at h3
    subst h3
    rcases ih rs hrs with ⟨hmap, hmem⟩
    refine ⟨?_, ?_⟩
    · simp only [List.map_cons, hmap, (resolveCandidate_ok_pin env tripId lh c r hr).2]
    · intro r' hr'
      rcases List.mem_cons.1 hr' with h' | h'
      · exact ⟨c, List.mem_cons_self _ _, h' ▸ hr⟩
      · rcases hmem r' h' with ⟨c', hc', hok⟩
        exact ⟨c', List.mem_cons_of_mem _ hc', hok⟩

theorem geocodeLocationHint_ok_of_no_throw (apiKey : String)
    (o : HttpOutcome GeocodeResponseJson) (ho : o ≠ HttpOutcome.netThrow) :
    ∃ v, geocodeLocationHint apiKey o = Except.ok v := by
  unfold geocodeLocationHint
  by_cases hk : apiKey = ""
  · exact ⟨none, by simp [hk]⟩
  · cases o with
    | ok json => exact ⟨json.results.head?.bind (fun r => r.location), by simp [hk]⟩
    | httpError => exact ⟨none, by simp [hk]⟩
    | netThrow => exact absurd rfl ho

theorem fetchPlaceForCandidate_ok_of_no_throw (apiKey : String) (c : VideoCandidateRow)
    (lh : Option String) (bias : Option LatLng) (o : HttpOutcome PlacesResponseJson)
    (ho : o ≠ HttpOutcome.netThrow) :
    ∃ v, fetchPlaceForCandidate apiKey c lh bias o = Except.ok v := by
  unfold fetchPlaceForCandidate
  by_cases hk : apiKey = ""
  · exact ⟨none, by simp [hk]⟩
  · cases o with
    | ok json =>
      cases hj : json.results.head? with
      | none => exact ⟨none, by simp [hk, hj]⟩
      | some top =>
        cases hp : top.place_id with
        | none => exact ⟨none, by simp [hk, hj, hp]⟩
        | some pid =>
          cases hl : top.location with
          | none => exact ⟨none, by simp [hk, hj, hp, hl]⟩
          | some loc =>
            by_cases hpid : pid = ""
            · exact ⟨none, by simp [hk, hj, hp, hl, hpid]⟩
            · refine ⟨some { place_id := pid
                             name := top.name
                             address := top.formatted_address
                             location := loc
                             raw := json }, ?_⟩
              simp [hk, hj, hp, hl, hpid]
    | httpError => exact ⟨none, by simp [hk]⟩
    | netThrow => exact absurd rfl ho

theorem resolveCandidate_ok_of_no_throw (env : ApproveEnv) (tripId : String)
    (lh : Option String) (c : VideoCandidateRow)
    (hg : ∀ hh, lh = some hh → env.geocodeOutcome hh ≠ HttpOutcome.netThrow)
    (hp : env.placesOutcome c.id ≠ HttpOutcome.netThrow) :
    ∃ r, resolveCandidate env tripId lh c = Except.ok r := by
  unfold resolveCandidate
  cases lh with
  | none =>
    rcases fetchPlaceForCandidate_ok_of_no_throw env.apiKey c none none
      (env.placesOutcome c.id) hp with ⟨place, hplace⟩
    refine ⟨resolveCandidatePure tripId (buildPlaceQuery c.name c.address_hint none) 0 none
      place c, ?_⟩
    simp only [pure_bind]
    exact (except_bind_ok _ _ _).2 ⟨place, hplace, rfl⟩
  | some hh =>
    rcases geocodeLocationHint_ok_of_no_throw env.apiKey (env.geocodeOutcome hh)
      (hg hh rfl) with ⟨b, hb⟩
    rcases fetchPlaceForCandidate_ok_of_no_throw env.apiKey c (some hh) b
      (env.placesOutcome c.id) hp with ⟨place, hplace⟩
    refine ⟨resolveCandidatePure tripId (buildPlaceQuery c.name c.address_hint (some hh)) 1 b
      place c, ?_⟩
    simp only [bind_assoc, pure_bind]
    exact (except_bind_ok _ _ _).2 ⟨b, hb,
      (except_bind_ok _ _ _).2 ⟨place, hplace, rfl⟩⟩

theorem approveBatch_ok_of_no_throw (env : ApproveEnv) (tripId : String) (lh : Option String) :
    ∀ (cands : List VideoCandidateRow),
      (∀ hh, lh = some hh → env.geocodeOutcome hh ≠ HttpOutcome.netThrow) →
      (∀ c ∈ cands, env.placesOutcome c.id ≠ HttpOutcome.netThrow) →
      ∃ resolved, approveBatch env tripId lh cands = Except.ok resolved := by
  intro cands
  induction cands with
  | nil => intro _ _; exact ⟨[], rfl⟩
  | cons c rest ih =>
    intro hg hp
    rcases resolveCandidate_ok_of_no_throw env tripId lh c hg
      (hp c (List.mem_cons_self _ _)) with ⟨r, hr⟩
    rcases ih hg (fun c' hc' => hp c' (List.mem_cons_of_mem _ hc')) with ⟨rs, hrs⟩
    refine ⟨r :: rs, ?_⟩
    simp only [approveBatch]
    exact (except_bind_ok _ _ _).2 ⟨r, hr, (except_bind_ok _ _ _).2 ⟨rs, hrs, rfl⟩⟩

/-- C1: on an approval whose batch completes (no thrown call), the response is
200, any submitted candidate whose latitude or longitude is still null after
resolution contributes no pin, and createdPinCount equals the number of
submitted candidates whose resolved coordinates are both non-null. -/
theorem approve_pin_count_matches_resolved_coords (env : ApproveEnv) (store : Store)
    (videoId : String) (candidateIds : List String) (video : VideoRow)
    (resolved : List ResolvedCandidate)
    (hne : candidateIds ≠ [])
    (hv : findVideo store videoId = some video)
    (hb : approveBatch env video.trip_id (normalizeHint video.location_hint)
        (fetchCandidates store videoId candidateIds) = Except.ok resolved) :
    (approveHandler env store videoId candidateIds).response.status = 200 ∧
    (approveHandler env store videoId candidateIds).response.createdPinCount =
      some (resolved.countP (fun r => r.latitude.isSome && r.longitude.isSome)) ∧
    ∀ r ∈ resolved, (r.latitude = none ∨ r.longitude = none) → r.pin = none := by
  have hmem := (approveBatch_ok_forall env video.trip_id (normalizeHint video.location_hint)
    (fetchCandidates store videoId candidateIds) resolved hb).2
  have hpin : ∀ r ∈ resolved, r.pin.isSome = (r.latitude.isSome && r.longitude.isSome) := by
    intro r hr
    rcases hmem r hr with ⟨c, _, hok⟩
    exact (resolveCandidate_ok_pin _ _ _ _ _ hok).1
  have hcount : (resolved.filterMap (fun r => r.pin)).length =
      resolved.countP (fun r => r.latitude.isSome && r.longitude.isSome) := by
    rw [List.length_filterMap_eq_countP]
    exact List.countP_congr (fun r hr => by rw [hpin r hr])
  have hdrop : ∀ r ∈ resolved, (r.latitude = none ∨ r.longitude = none) → r.pin = none := by
    intro r hr hnull
    have hps := hpin r hr
    cases hp : r.pin with
    | none => rfl
    | some p =>
      rw [hp] at hps
      rcases hnull with h | h <;> rw [h] at hps <;> simp at hps
  refine ⟨?_, ?_, hdrop⟩ <;>
  · simp only [approveHandler, if_neg hne, hv, hb]
    by_cases hfp : resolved.filterMap (fun r => r.pin) = []
    · simp [hfp, ← hcount]
    · simp [hfp, ← hcount]

/-- C1 witness: video `v1`, candidates `c1` (resolves to coordinates) and
`c2` (resolution fails, stays null): the response is 200 with
createdPinCount 1. -/
theorem approve_pin_count_witness :
    (["c1", "c2"] ≠ ([] : List String)) ∧
    findVideo store1 "v1" = some video1 ∧
    approveBatch env1 video1.trip_id (normalizeHint video1.location_hint)
      (fetchCandidates store1 "v1" ["c1", "c2"]) = Except.ok resolved1 ∧
    resolved1.countP (fun r => r.latitude.isSome && r.longitude.isSome) = 1 ∧
    ((approveHandler env1 store1 "v1" ["c1", "c2"]).response.status = 200 ∧
      (approveHandler env1 store1 "v1" ["c1", "c2"]).response.createdPinCount =
        some (resolved1.countP (fun r => r.latitude.isSome && r.longitude.isSome)) ∧
      ∀ r ∈ resolved1, (r.latitude = none ∨ r.longitude = none) → r.pin = none) :=
  ⟨by decide, by rfl, by rfl, by rfl,
    approve_pin_count_matches_resolved_coords env1 store1 "v1" ["c1", "c2"] video1 resolved1
      (by decide) (by rfl) (by rfl)⟩

/-- C2 counterexample: candidate `c2` has no coordinates and its resolution
fails, yet the approve request over it is NOT rejected with 400: the response
is 200 with createdPinCount 0 (the candidate is silently skipped). -/
theorem approve_missing_coords_not_rejected :
    cand2.latitude = none ∧ cand2.longitude = none ∧
    fetchCandidates store1 "v1" ["c2"] = [cand2] ∧
    (approveHandler env1 store1 "v1" ["c2"]).response.status = 200 ∧
    (approveHandler env1 store1 "v1" ["c2"]).response.createdPinCount = some 0 :=
  ⟨rfl, rfl, by decide, by rfl, by rfl⟩

/-- C2 amended: the pins route (`POST /trips/:tripId/pins` with
candidate_ids) rejects with 400 whenever a fetched candidate lacks a
coordinate, while the video-approve route never rejects for missing
coordinates: when its batch completes it responds 200 and candidates whose
resolved coordinates are null are silently dropped from the pins. -/
theorem pins_route_rejects_missing_coords_approve_route_skips
    (storeA : Store) (tripId : String) (ids : List String)
    (env : ApproveEnv) (storeB : Store) (videoId : String) (cids : List String)
    (video : VideoRow) (resolved : List ResolvedCandidate)
    (hmiss : ∃ c ∈ storeA.candidates.filter (fun c => ids.contains c.id),
      c.latitude.isNone || c.longitude.isNone)
    (hne : cids ≠ [])
    (hv : findVideo storeB videoId = some video)
    (hb : approveBatch env video.trip_id (normalizeHint video.location_hint)
        (fetchCandidates storeB videoId cids) = Except.ok resolved) :
    (pinsFromCandidates storeA tripId ids).1.status = 400 ∧
    (approveHandler env storeB videoId cids).response.status = 200 ∧
    ∀ r ∈ resolved, (r.latitude = none ∨ r.longitude = none) → r.pin = none := by
  refine ⟨?_, ?_, ?_⟩
  · simp only [pinsFromCandidates]
    split
    · rfl
    · split
      · rfl
      · rename_i hmm hmc
        exfalso
        rcases hmiss with ⟨c, hc, hcoord⟩
        exact hmc (List.ne_nil_of_mem (List.mem_filter.2 ⟨hc, hcoord⟩))
  · simp only [approveHandler, if_neg hne, hv, hb]
    by_cases hfp : resolved.filterMap (fun r => r.pin) = [] <;> simp [hfp]
  · intro r hr hnull
    have hmem := (approveBatch_ok_forall env video.trip_id
      (normalizeHint video.location_hint) (fetchCandidates storeB videoId cids) resolved hb).2
    rcases hmem r hr with ⟨c, _, hok⟩
    have hps := (resolveCandidate_ok_pin _ _ _ _ _ hok).1
    cases hp : r.pin with
    | none => rfl
    | some p =>
      rw [hp] at hps
      rcases hnull with h | h <;> rw [h] at hps <;> simp at hps

/-- C2 amended witness: store `store1`, trip `t1`, candidate `c2` without
coordinates: the pins route answers 400 and the approve route answers 200. -/
theorem pins_route_rejects_missing_coords_witness :
    (∃ c ∈ store1.candidates.filter (fun c => (["c2"] : List String).contains c.id),
      c.latitude.isNone || c.longitude.isNone) ∧
    ((pinsFromCandidates store1 "t1" ["c2"]).1.status = 400 ∧
      (approveHandler env1 store1 "v1" ["c2"]).response.status = 200 ∧
      ∀ r ∈ [res2], (r.latitude = none ∨ r.longitude = none) → r.pin = none) :=
  ⟨⟨cand2, by decide, by decide⟩,
    pins_route_rejects_missing_coords_approve_route_skips store1 "t1" ["c2"] env1 store1 "v1"
      ["c2"] video1 [res2] ⟨cand2, by decide, by decide⟩ (by decide) (by rfl) (by rfl)⟩

/-- C3 counterexample: candidate `c2`'s places search fails (non-2xx, so the
resolved place and `places_raw` are null), yet after applying the persisted
resolver-outcome update the row's `places_failed` is still `false` — the
update never writes `places_failed`, contradicting the claim that it is set
to true; the (null) coordinates are kept, as the claim also says. -/
theorem resolver_update_never_sets_places_failed :
    (resolveCandidate env1 "t1" none cand2).map (fun r =>
        (r.update.places_raw, (applyDebugUpdate r.update cand2).latitude,
          (applyDebugUpdate r.update cand2).longitude,
          (applyDebugUpdate r.update cand2).places_failed)) =
      Except.ok (none, none, none, false) :=
  rfl

/-- C3 amended: the persisted resolver-outcome update of the approve route
writes only the five `places_*` debug columns: it preserves the row's
latitude, longitude and `places_failed` (it never sets `places_failed`,
neither to true nor to false), and when resolution fails (null `places_raw`)
the in-memory coordinates also stay the candidate's original ones. -/
theorem resolver_update_preserves_coords_and_places_failed (env : ApproveEnv)
    (tripId : String) (lh : Option String) (c : VideoCandidateRow) (r : ResolvedCandidate)
    (h : resolveCandidate env tripId lh c = Except.ok r) :
    (applyDebugUpdate r.update c).latitude = c.latitude ∧
    (applyDebugUpdate r.update c).longitude = c.longitude ∧
    (applyDebugUpdate r.update c).places_failed = c.places_failed ∧
    (r.update.places_raw = none → r.latitude = c.latitude ∧ r.longitude = c.longitude) := by
  refine ⟨rfl, rfl, rfl, ?_⟩
  intro hraw
  rcases resolveCandidate_ok_shape env tripId lh c r h with ⟨g, bias, place, rfl⟩
  rw [resolveCandidatePure_raw] at hraw
  cases place with
  | none => exact resolveCandidatePure_coords_of_place_none _ _ _ _ _
  | some p => simp at hraw

/-- C3 amended witness: the update computed for the failing candidate `c2`
keeps its null coordinates and its `places_failed` value. -/
theorem resolver_update_preserves_witness :
    resolveCandidate env1 "t1" none cand2 = Except.ok res2 ∧
    ((applyDebugUpdate res2.update cand2).latitude = cand2.latitude ∧
      (applyDebugUpdate res2.update cand2).longitude = cand2.longitude ∧
      (applyDebugUpdate res2.update cand2).places_failed = cand2.places_failed ∧
      (res2.update.places_raw = none →
        res2.latitude = cand2.latitude ∧ res2.longitude = cand2.longitude)) :=
  ⟨rfl, resolver_update_preserves_coords_and_places_failed env1 "t1" none cand2 res2 rfl⟩

/-- C4 (bug witness): in an approval batch of two candidates for a video with
location hint "Chicago, IL", the geocoder is invoked twice — once per
candidate — not at most once. The per-request `locationCache` cannot
deduplicate the calls because every closure's `locationCache.has` check runs
in its synchronous prefix, before any closure's `locationCache.set` (which
follows an await) can run, so every lookup misses. -/
theorem approve_geocodes_once_per_candidate :
    (approveBatch env4 video4.trip_id (normalizeHint video4.location_hint)
        [cand41, cand42]).map (fun rs => (rs.map (fun r => r.geocodeCalls)).sum) =
      Except.ok 2 :=
  rfl

/-- C7 counterexample: candidate `ct`'s places search throws (network error)
while candidate `cg` resolves to coordinates; the whole request aborts with
500, no pins are created (no insert is reached), although `cg` alone would
have produced a pin — a per-candidate thrown error does abort the batch. -/
theorem approve_throw_aborts_batch :
    (approveHandler env7 store7 "v7" ["cg", "ct"]).response.status = 500 ∧
    (approveHandler env7 store7 "v7" ["cg", "ct"]).response.pins = none ∧
    (approveHandler env7 store7 "v7" ["cg", "ct"]).store.pins = [] ∧
    (approveHandler env7 store7 "v7" ["cg", "ct"]).ops =
      [StoreOp.readVideo "v7", StoreOp.readCandidates "v7" ["cg", "ct"]] ∧
    (resolveCandidate env7 "t7" none candGood).map (fun r => r.pin.isSome) =
      Except.ok true :=
  ⟨rfl, rfl, rfl, rfl, rfl⟩

/-- C7 amended: per-candidate resolution failures that are reported as
responses — non-2xx geocoding or places-search replies, or empty results —
never abort the batch: the batch completes, every submitted candidate gets
its resolver-outcome update persisted, the response is 200, and each
candidate's pin is created exactly when its resolved coordinates are both
non-null. (A thrown call, e.g. a network error, does abort the request with
500 and no pins: see the counterexample.) -/
theorem approve_batch_survives_nonthrowing_failures (env : ApproveEnv) (store : Store)
    (videoId : String) (candidateIds : List String) (video : VideoRow)
    (hne : candidateIds ≠ [])
    (hv : findVideo store videoId = some video)
    (hg : ∀ hh, normalizeHint video.location_hint = some hh →
      env.geocodeOutcome hh ≠ HttpOutcome.netThrow)
    (hp : ∀ c ∈ fetchCandidates store videoId candidateIds,
      env.placesOutcome c.id ≠ HttpOutcome.netThrow) :
    ∃ resolved,
      approveBatch env video.trip_id (normalizeHint video.location_hint)
          (fetchCandidates store videoId candidateIds) = Except.ok resolved ∧
      resolved.map (fun r => r.candidate_id) =
        (fetchCandidates store videoId candidateIds).map (fun c => c.id) ∧
      (approveHandler env store videoId candidateIds).response.status = 200 ∧
      (∀ c ∈ fetchCandidates store videoId candidateIds,
        StoreOp.updateCandidate c.id ∈ (approveHandler env store videoId candidateIds).ops) ∧
      ∀ r ∈ resolved, r.pin.isSome = (r.latitude.isSome && r.longitude.isSome) := by
  rcases approveBatch_ok_of_no_throw env video.trip_id (normalizeHint video.location_hint)
    (fetchCandidates store videoId candidateIds) hg hp with ⟨resolved, hb⟩
  have hforall := approveBatch_ok_forall env video.trip_id (normalizeHint video.location_hint)
    (fetchCandidates store videoId candidateIds) resolved hb
  refine ⟨resolved, hb, hforall.1, ?_, ?_, ?_⟩
  · simp only [approveHandler, if_neg hne, hv, hb]
    by_cases hfp : resolved.filterMap (fun r => r.pin) = [] <;> simp [hfp]
  · intro c hc
    have hid : StoreOp.updateCandidate c.id ∈
        resolved.map (fun r => StoreOp.updateCandidate r.candidate_id) := by
      have h1 : c.id ∈ (fetchCandidates store videoId candidateIds).map (fun c => c.id) :=
        List.mem_map_of_mem _ hc
      rw [← hforall.1] at h1
      rcases List.mem_map.1 h1 with ⟨r, hr, hrid⟩
      exact List.mem_map.2 ⟨r, hr, by rw [hrid]⟩
    by_cases hfp : resolved.filterMap (fun r => r.pin) = [] <;>
      simp [approveHandler, if_neg hne, hv, hb, hfp, List.mem_append, hid]
  · intro r hr
    rcases hforall.2 r hr with ⟨c, _, hok⟩
    exact (resolveCandidate_ok_pin _ _ _ _ _ hok).1

/-- C7 amended witness: candidates `c1` (succeeds) and `c2` (non-2xx
failure): the batch completes, both updates are persisted, the response is
200. -/
theorem approve_batch_survives_witness :
    (["c1", "c2"] ≠ ([] : List String)) ∧
    findVideo store1 "v1" = some video1 ∧
    (∃ resolved,
      approveBatch env1 video1.trip_id (normalizeHint video1.location_hint)
          (fetchCandidates store1 "v1" ["c1", "c2"]) = Except.ok resolved ∧
      resolved.map (fun r => r.candidate_id) =
        (fetchCandidates store1 "v1" ["c1", "c2"]).map (fun c => c.id) ∧
      (approveHandler env1 store1 "v1" ["c1", "c2"]).response.status = 200 ∧
      (∀ c ∈ fetchCandidates store1 "v1" ["c1", "c2"],
        StoreOp.updateCandidate c.id ∈ (approveHandler env1 store1 "v1" ["c1", "c2"]).ops) ∧
      ∀ r ∈ resolved, r.pin.isSome = (r.latitude.isSome && r.longitude.isSome)) :=
  ⟨by decide, by rfl,
    approve_batch_survives_nonthrowing_failures env1 store1 "v1" ["c1", "c2"] video1
      (by decide) (by rfl) (by intro hh h; simp [video1, normalizeHint] at h) (by decide)⟩

end TravelApp
